import Mathlib

/-!
Shallow embedding of `src/kafka_test/main.py`: an HTTP API for users and
orders.  Order creation validates input (a stub in the source), computes a
total price over the products returned by the `get_products` dependency,
persists the order, schedules two background tasks and publishes one event
to a Kafka topic.  The relational models (`database.py`) are not part of the
sources; the store is modelled from the spec's data-model section as an
in-memory record of entity lists with id counters.
-/

/-- A product row: numeric id and price.  Modelled from the spec:
"Product: identity, price (numeric, non-negative by convention, not
enforced)" — `database.py` is not among the sources. -/
structure Product where
  id : Nat
  price : ℚ
deriving Repr, DecidableEq

/-- A user row: numeric id, username, email, password hash.  Modelled from
the spec: "User: identity (numeric id, unique), username, email, password
hash" — `database.py` is not among the sources. -/
structure User where
  id : Nat
  username : String
  email : String
  password_hash : String
deriving Repr, DecidableEq

/-- An order row.  Modelled from the spec: "Order: identity, owning user id,
ordered sequence of product ids, email, total price (derived, stored)" —
`database.py` is not among the sources.  `create_order` fills the non-id
fields from `order_data.dict()` plus the computed `total_price`. -/
structure Order where
  id : Nat
  user_id : Nat
  products : List Nat
  email : String
  total_price : ℚ
deriving Repr, DecidableEq

/-- Request body of POST /orders/ (`class OrderCreate(BaseModel)`). -/
structure OrderCreate where
  user_id : Nat
  products : List Nat
  email : String
deriving Repr, DecidableEq

/-- Request body of POST /users/ and PUT /users/{id}
(`class UserCreate(BaseModel)`). -/
structure UserCreate where
  username : String
  email : String
  password_hash : String
deriving Repr, DecidableEq

/-- The in-memory image of the relational store: one list per entity in
scope, plus the id counters the engine would use to assign fresh primary
keys on insert.  (Category and Review are unused by the code in scope.) -/
structure Store where
  users : List User
  products : List Product
  orders : List Order
  next_user_id : Nat
  next_order_id : Nat
deriving Repr, DecidableEq

/-- Embeds `KAFKA_TOPIC = 'logs'` from main.py. -/
def KAFKA_TOPIC : String := "logs"

/-- The payload `{'event': 'order_created', 'order_id': db_order.id}` that
main.py publishes: a JSON object with exactly these two keys. -/
structure LogData where
  event : String
  order_id : Nat
deriving Repr, DecidableEq

/-- A message handed to `producer.send(KAFKA_TOPIC, value=log_data)`. -/
structure KafkaMessage where
  topic : String
  value : LogData
deriving Repr, DecidableEq

/-- The two Dramatiq actors of main.py with the arguments
`background_tasks.add_task` passes them (the `EmailSender` capability
carries no data and is omitted). -/
inductive BgTask where
  | send_confirmation_email (order_id : Nat) (email : String)
  | process_payment (order_id : Nat)
deriving Repr, DecidableEq

/-- One observable side effect of `create_order`, in program order:
committing the order row, scheduling a background task, publishing a
Kafka message. -/
inductive Effect where
  | persist (o : Order)
  | schedule (t : BgTask)
  | publish (m : KafkaMessage)
deriving Repr, DecidableEq

/-- Recognizes publication effects. -/
def Effect.isPublish : Effect → Bool
  | Effect.publish _ => true
  | _ => false

/-- Recognizes task-scheduling effects. -/
def Effect.isSchedule : Effect → Bool
  | Effect.schedule _ => true
  | _ => false

/-- Embeds `HTTPException(status_code=..., detail=...)` from FastAPI as used in
main.py. -/
structure HTTPException where
  status_code : Nat
  detail : String
deriving Repr, DecidableEq

/-- Embeds `calculate_total_price(order_data, products)` from main.py: it sums
`product.price` over the whole `products` argument and never reads
`order_data`. -/
def calculate_total_price (order_data : OrderCreate) (products : List Product) : ℚ :=
  let _ := order_data
  (products.map Product.price).sum

/-- Embeds `validate_user_input(order_data)` from main.py: the body is `pass`, so
it checks nothing and always returns None. -/
def validate_user_input (order_data : OrderCreate) : Unit :=
  let _ := order_data
  ()

/-- Embeds `get_products(db)` from main.py: `db.query(Product).all()`, i.e. every
product row in the store. -/
def get_products (db : Store) : List Product :=
  db.products

/-- Result of one `create_order` call: the HTTP response (the created order,
or an error), the store after the call, and the ordered trace of side
effects that actually happened. -/
structure CreateOrderResult where
  response : Except String Order
  db : Store
  effects : List Effect
deriving Repr

/-- The order row `Order(**order_data.dict(), total_price=total_price)`
that `create_order` builds, with the id the store assigns at commit. -/
def built_order (order_data : OrderCreate) (db : Store) : Order :=
  { id := db.next_order_id
    user_id := order_data.user_id
    products := order_data.products
    email := order_data.email
    total_price := calculate_total_price order_data (get_products db) }

/-- Embeds `create_order` from main.py (POST /orders/).  The straight-line body is
embedded as a sequence: validate (a no-op), compute the total, commit the
order, then schedule the confirmation-email task, schedule the payment
task, and publish the order_created event.  `commit_ok` models whether the
storage write (`db.commit()`) succeeds; when it raises, the exception
propagates before any task is scheduled or any event published. -/
def create_order (order_data : OrderCreate) (db : Store) (commit_ok : Bool) :
    CreateOrderResult :=
  let _ := validate_user_input order_data
  let total_price := calculate_total_price order_data (get_products db)
  let _ := total_price
  let db_order := built_order order_data db
  if commit_ok then
    { response := Except.ok db_order
      db := { db with
                orders := db.orders ++ [db_order]
                next_order_id := db.next_order_id + 1 }
      effects := [Effect.persist db_order,
                  Effect.schedule (BgTask.send_confirmation_email db_order.id order_data.email),
                  Effect.schedule (BgTask.process_payment db_order.id),
                  Effect.publish { topic := KAFKA_TOPIC,
                                   value := { event := "order_created",
                                              order_id := db_order.id } }] }
  else
    { response := Except.error "PersistenceError"
      db := db
      effects := [] }

/-- Total price of the response order, when the call succeeded. -/
def response_total (r : CreateOrderResult) : Option ℚ :=
  match r.response with
  | Except.ok o => some o.total_price
  | Except.error _ => none

/-- Email field of the response order, when the call succeeded. -/
def response_email (r : CreateOrderResult) : Option String :=
  match r.response with
  | Except.ok o => some o.email
  | Except.error _ => none

/-- Modelled from the spec: the total the specification prescribes — "sum of
current prices of exactly the products whose ids are listed in the
request's products list". -/
def spec_referenced_total (order_data : OrderCreate) (products : List Product) : ℚ :=
  ((products.filter (fun p => order_data.products.contains p.id)).map Product.price).sum

/-- Embeds `create_user` from main.py (POST /users/): inserts a row built from the
request body; the store assigns the fresh id at commit; the refreshed row
is returned. -/
def create_user (user_data : UserCreate) (db : Store) : User × Store :=
  let db_user : User :=
    { id := db.next_user_id
      username := user_data.username
      email := user_data.email
      password_hash := user_data.password_hash }
  (db_user, { db with
                users := db.users ++ [db_user]
                next_user_id := db.next_user_id + 1 })

/-- Embeds `get_user` from main.py (GET /users/{id}):
`db.query(User).filter(User.id == user_id).first()`, 404 when absent. -/
def get_user (user_id : Nat) (db : Store) : Except HTTPException User :=
  match db.users.find? (fun u => u.id == user_id) with
  | some u => Except.ok u
  | none => Except.error { status_code := 404, detail := "User not found" }

/-- Overwrites the fields of a user row with the request body, as the
`setattr` loop of `update_user` does (`user_data.dict()` has exactly
username, email and password_hash; the id is untouched). -/
def apply_user_data (user_data : UserCreate) (u : User) : User :=
  { u with
      username := user_data.username
      email := user_data.email
      password_hash := user_data.password_hash }

/-- Replaces the first element satisfying `p` by its image under `f`,
leaving everything else in place — the effect of mutating the row that
`.first()` returned. -/
def updateFirst (p : User → Bool) (f : User → User) : List User → List User
  | [] => []
  | u :: us => if p u then f u :: us else u :: updateFirst p f us

/-- Removes the first element satisfying `p`, the effect of
`db.delete(db_user)` on the row `.first()` returned. -/
def removeFirst (p : User → Bool) : List User → List User
  | [] => []
  | u :: us => if p u then us else u :: removeFirst p us

/-- Embeds `update_user` from main.py (PUT /users/{id}): 404 when absent,
otherwise overwrite username, email and password_hash on the found row,
commit, and return the refreshed row. -/
def update_user (user_id : Nat) (user_data : UserCreate) (db : Store) :
    Except HTTPException (User × Store) :=
  match db.users.find? (fun u => u.id == user_id) with
  | none => Except.error { status_code := 404, detail := "User not found" }
  | some db_user =>
      Except.ok (apply_user_data user_data db_user,
        { db with
            users := updateFirst (fun u => u.id == user_id) (apply_user_data user_data) db.users })

/-- Embeds `delete_user` from main.py (DELETE /users/{id}): 404 when absent,
otherwise delete the found row and answer with a confirmation message. -/
def delete_user (user_id : Nat) (db : Store) :
    Except HTTPException (String × Store) :=
  match db.users.find? (fun u => u.id == user_id) with
  | none => Except.error { status_code := 404, detail := "User not found" }
  | some _ =>
      Except.ok ("User deleted successfully",
        { db with users := removeFirst (fun u => u.id == user_id) db.users })

/-- Embeds the `.offset(skip)` step of a SQLAlchemy query on the user table. -/
def queryOffset (n : Nat) (l : List User) : List User :=
  l.drop n

/-- Embeds the `.limit(limit)` step of a SQLAlchemy query on the user table. -/
def queryLimit (n : Nat) (l : List User) : List User :=
  l.take n

/-- Embeds `get_users` from main.py (GET /users/):
`db.query(User).offset(skip).limit(limit).all()`. -/
def get_users (db : Store) (skip limit : Nat) : List User :=
  queryLimit limit (queryOffset skip db.users)

/-- Default value of the `skip` query parameter (`skip: int = 0`). -/
def GET_USERS_DEFAULT_SKIP : Nat := 0

/-- Default value of the `limit` query parameter (`limit: int = 10`). -/
def GET_USERS_DEFAULT_LIMIT : Nat := 10

/-- GET /users/ with both query parameters omitted. -/
def get_users_default (db : Store) : List User :=
  get_users db GET_USERS_DEFAULT_SKIP GET_USERS_DEFAULT_LIMIT

/-- Store well-formedness: every stored user id is below the fresh-id
counter, as the storage engine's auto-increment primary key guarantees. -/
def Store.WF (db : Store) : Prop :=
  ∀ u ∈ db.users, u.id < db.next_user_id

/-- User ids are pairwise distinct, the spec's "identity (numeric id,
unique)". -/
def Store.UniqueIds (db : Store) : Prop :=
  db.users.Pairwise (fun a b => a.id ≠ b.id)

/-- A store whose product table holds the two products of the spec's
scenario plus a third one that no request references. -/
def overfull_store : Store :=
  { users := []
    products := [{ id := 10, price := 5 }, { id := 11, price := 15/2 }, { id := 12, price := 100 }]
    orders := []
    next_user_id := 1
    next_order_id := 1 }

/-- The spec's scenario request: products [10, 11], email a@b.com. -/
def two_product_request : OrderCreate :=
  { user_id := 1, products := [10, 11], email := "a@b.com" }

/-- A completely empty store. -/
def empty_store : Store :=
  { users := [], products := [], orders := [], next_user_id := 1, next_order_id := 1 }

/-- An order request with an empty product list, a user id with no record
and a malformed email address. -/
def empty_products_request : OrderCreate :=
  { user_id := 7, products := [], email := "not-an-email" }

/-- A store with one user whose email differs from the one the order
request will carry. -/
def mismatch_store : Store :=
  { users := [{ id := 1, username := "alice", email := "alice@example.com", password_hash := "h1" }]
    products := [{ id := 10, price := 5 }]
    orders := []
    next_user_id := 2
    next_order_id := 1 }

/-- An order request for user 1 carrying an email that is not user 1's. -/
def mismatch_request : OrderCreate :=
  { user_id := 1, products := [10], email := "other@example.com" }

/-- A store with two users and two products, used to instantiate the
general theorems. -/
def sample_users_store : Store :=
  { users := [{ id := 1, username := "alice", email := "alice@example.com", password_hash := "h1" },
              { id := 2, username := "bob", email := "bob@example.com", password_hash := "h2" }]
    products := [{ id := 10, price := 5 }, { id := 11, price := 7 }]
    orders := []
    next_user_id := 3
    next_order_id := 1 }

/-- An order request against `sample_users_store`. -/
def sample_request : OrderCreate :=
  { user_id := 1, products := [10, 11], email := "alice@example.com" }

/-- The order `create_order` commits for `sample_request` against
`sample_users_store`. -/
def sample_order : Order :=
  built_order sample_request sample_users_store

/-- A user-creation body for the round-trip instantiation. -/
def new_user_data : UserCreate :=
  { username := "carol", email := "carol@example.com", password_hash := "h3" }

/-- A user-update body for the frame instantiation. -/
def upd_data : UserCreate :=
  { username := "alice2", email := "alice2@example.com", password_hash := "h9" }

/-- The user PUT /users/1 returns for `upd_data` on `sample_users_store`. -/
def upd_user_expected : User :=
  apply_user_data upd_data
    { id := 1, username := "alice", email := "alice@example.com", password_hash := "h1" }

/-- The store after PUT /users/1 with `upd_data` on `sample_users_store`. -/
def upd_store_expected : Store :=
  { sample_users_store with
      users := updateFirst (fun u => u.id == 1) (apply_user_data upd_data) sample_users_store.users }

/-- The 404 error every user endpoint raises when the id is absent. -/
def e404 : HTTPException :=
  { status_code := 404, detail := "User not found" }

/-- Searching an appended list when the first part has no match. -/
theorem find?_append_none {α : Type} {p : α → Bool} :
    ∀ (l₁ l₂ : List α), l₁.find? p = none → (l₁ ++ l₂).find? p = l₂.find? p := by
  intro l₁ l₂ h
  induction l₁ with
  | nil => rfl
  | cons a t ih =>
    cases hpa : p a with
    | true =>
      rw [List.find?_cons_of_pos t hpa] at h
      exact absurd h (by simp)
    | false =>
      rw [List.find?_cons_of_neg t (by simp [hpa])] at h
      rw [List.cons_append, List.find?_cons_of_neg _ (by simp [hpa])]
      exact ih h

/-- After `updateFirst`, the first match of `p` is the image of the old
first match, provided `f` preserves `p`. -/
theorem find?_updateFirst (p : User → Bool) (f : User → User)
    (hf : ∀ u, p u = true → p (f u) = true) :
    ∀ (l : List User) (u : User), l.find? p = some u →
      (updateFirst p f l).find? p = some (f u) := by
  intro l
  induction l with
  | nil => intro u h; exact absurd h (by simp)
  | cons a t ih =>
    intro u h
    cases hpa : p a with
    | true =>
      rw [List.find?_cons_of_pos t hpa] at h
      injection h with h
      subst h
      rw [updateFirst]
      simp only [hpa, if_true]
      exact List.find?_cons_of_pos _ (hf a hpa)
    | false =>
      rw [List.find?_cons_of_neg t (by simp [hpa])] at h
      rw [updateFirst]
      simp only [hpa, Bool.false_eq_true, if_false]
      rw [List.find?_cons_of_neg _ (by simp [hpa])]
      exact ih u h

/-- The map `updateFirst` keeps every element that does not satisfy `p`. -/
theorem mem_updateFirst_of_neg (p : User → Bool) (f : User → User) :
    ∀ (l : List User) (v : User), v ∈ l → p v = false → v ∈ updateFirst p f l := by
  intro l
  induction l with
  | nil => intro v hv _; exact absurd hv (List.not_mem_nil v)
  | cons a t ih =>
    intro v hv hpv
    rcases List.mem_cons.1 hv with rfl | hvt
    · rw [updateFirst]
      simp only [hpv, Bool.false_eq_true, if_false]
      exact List.mem_cons_self v (updateFirst p f t)
    · rw [updateFirst]
      cases hpa : p a with
      | true =>
        simp only [if_true]
        exact List.mem_cons_of_mem (f a) hvt
      | false =>
        simp only [Bool.false_eq_true, if_false]
        exact List.mem_cons_of_mem a (ih v hvt hpv)

/-- Once the row with a given id is removed from a table with pairwise
distinct ids, looking that id up finds nothing. -/
theorem find?_id_removeFirst (uid : Nat) :
    ∀ (l : List User), l.Pairwise (fun a b => a.id ≠ b.id) →
      (removeFirst (fun u => u.id == uid) l).find? (fun u => u.id == uid) = none := by
  intro l
  induction l with
  | nil => intro _; rfl
  | cons a t ih =>
    intro hp
    rw [List.pairwise_cons] at hp
    obtain ⟨ha, hpt⟩ := hp
    by_cases hpa : a.id = uid
    · rw [removeFirst]
      simp only [hpa, beq_self_eq_true, if_true]
      refine List.find?_eq_none.2 (fun u hu => ?_)
      simp only [beq_iff_eq]
      intro huid
      exact ha u hu (by rw [hpa, huid])
    · rw [removeFirst]
      have hb : (a.id == uid) = false := by simp [hpa]
      simp only [hb, Bool.false_eq_true, if_false]
      rw [List.find?_cons_of_neg _ (by simp [hb])]
      exact ih hpt

/-- C1: the claim says the returned order's total_price is the sum of the
current prices of exactly the products referenced in the request.  The
code instead sums over every product `get_products` returns, i.e. the
whole product table: on a store holding products 10 (price 5), 11 (price
15/2) and 12 (price 100), the request for products [10, 11] gets
total_price 225/2 where the referenced-products sum is 25/2. -/
theorem c1_total_is_sum_over_all_products :
    response_total (create_order two_product_request overfull_store true) = some (225/2)
    ∧ spec_referenced_total two_product_request (get_products overfull_store) = 25/2
    ∧ ((225 : ℚ)/2) ≠ 25/2 := by
  refine ⟨?_, ?_, by norm_num⟩
  · norm_num [response_total, create_order, built_order, calculate_total_price,
      get_products, overfull_store, two_product_request]
  · norm_num [spec_referenced_total, get_products, overfull_store,
      two_product_request, List.filter]

/-- C2: the claim says an order request with an empty product list, a
dangling user id or a malformed email is rejected and nothing persisted.
`validate_user_input` is a `pass` stub, so `create_order` accepts a
request with an empty product list, user id 7 (no user exists) and email
"not-an-email": it answers 200 with a total of 0 and commits the order. -/
theorem c2_invalid_order_accepted_and_persisted :
    (create_order empty_products_request empty_store true).response
      = Except.ok (built_order empty_products_request empty_store)
    ∧ (create_order empty_products_request empty_store true).db.orders
      = [built_order empty_products_request empty_store]
    ∧ (built_order empty_products_request empty_store).total_price = 0
    ∧ empty_products_request.products = []
    ∧ empty_store.users = [] := by
  refine ⟨rfl, rfl, rfl, rfl, rfl⟩

/-- C3: the order's commit happens before task scheduling and event
publication — in the success trace the persist effect precedes both
schedule effects and the publish effect — and when the storage write
fails the call errors with PersistenceError, the store is unchanged, and
no task is scheduled and no event published. -/
theorem c3_persist_happens_before_dispatch (d : OrderCreate) (db : Store) :
    (create_order d db false).response = Except.error "PersistenceError"
    ∧ (create_order d db false).effects = []
    ∧ (create_order d db false).db = db
    ∧ (create_order d db true).effects =
        [Effect.persist (built_order d db),
         Effect.schedule (BgTask.send_confirmation_email (built_order d db).id d.email),
         Effect.schedule (BgTask.process_payment (built_order d db).id),
         Effect.publish { topic := KAFKA_TOPIC,
                          value := { event := "order_created",
                                     order_id := (built_order d db).id } }] := by
  exact ⟨rfl, rfl, rfl, rfl⟩

/-- C4: every successful order creation publishes exactly one event, to the
fixed topic "logs", whose payload has key event = "order_created" and key
order_id = the id of the order just persisted (the order appended to the
store's order table). -/
theorem c4_exactly_one_event_published (d : OrderCreate) (db : Store) (b : Bool) (o : Order)
    (h : (create_order d db b).response = Except.ok o) :
    (create_order d db b).effects.filter Effect.isPublish =
      [Effect.publish { topic := KAFKA_TOPIC,
                        value := { event := "order_created", order_id := o.id } }]
    ∧ (create_order d db b).db.orders = db.orders ++ [o] := by
  cases b with
  | false => exact absurd h (by simp [create_order])
  | true =>
    have ho : built_order d db = o := by
      simpa [create_order] using h
    subst ho
    exact ⟨rfl, rfl⟩

/-- C4 witness: instantiation on a concrete store and request. -/
theorem c4_exactly_one_event_published_witness :
    (create_order sample_request sample_users_store true).effects.filter Effect.isPublish =
      [Effect.publish { topic := KAFKA_TOPIC,
                        value := { event := "order_created", order_id := sample_order.id } }]
    ∧ (create_order sample_request sample_users_store true).db.orders
      = sample_users_store.orders ++ [sample_order] :=
  c4_exactly_one_event_published sample_request sample_users_store true sample_order rfl

/-- C5: every successful order creation schedules exactly two background
tasks, in this order: the confirmation-email task with the created
order's id and email, and the payment task with the created order's
id. -/
theorem c5_exactly_two_tasks_scheduled (d : OrderCreate) (db : Store) (b : Bool) (o : Order)
    (h : (create_order d db b).response = Except.ok o) :
    (create_order d db b).effects.filter Effect.isSchedule =
      [Effect.schedule (BgTask.send_confirmation_email o.id o.email),
       Effect.schedule (BgTask.process_payment o.id)] := by
  cases b with
  | false => exact absurd h (by simp [create_order])
  | true =>
    have ho : built_order d db = o := by
      simpa [create_order] using h
    subst ho
    rfl

/-- C5 witness: instantiation on a concrete store and request. -/
theorem c5_exactly_two_tasks_scheduled_witness :
    (create_order sample_request sample_users_store true).effects.filter Effect.isSchedule =
      [Effect.schedule (BgTask.send_confirmation_email sample_order.id sample_order.email),
       Effect.schedule (BgTask.process_payment sample_order.id)] :=
  c5_exactly_two_tasks_scheduled sample_request sample_users_store true sample_order rfl

/-- C6 counterexample: the claim says the order's stored email equals the
owning user's email at creation time.  On a store where user 1's email is
"alice@example.com", an order request for user 1 carrying email
"other@example.com" succeeds and stores "other@example.com": the code
copies the request's email and never reads the user row. -/
theorem c6_order_email_differs_from_user_email :
    response_email (create_order mismatch_request mismatch_store true) = some "other@example.com"
    ∧ (get_user mismatch_request.user_id mismatch_store).toOption.map User.email
      = some "alice@example.com"
    ∧ ("other@example.com" : String) ≠ "alice@example.com" := by
  refine ⟨rfl, rfl, by decide⟩

/-- C6 amended: the email stored on a successfully created order equals the
email supplied in the order request (the code never consults the owning
user's record). -/
theorem c6_order_email_equals_request_email (d : OrderCreate) (db : Store) (b : Bool) (o : Order)
    (h : (create_order d db b).response = Except.ok o) :
    o.email = d.email := by
  cases b with
  | false => exact absurd h (by simp [create_order])
  | true =>
    have ho : built_order d db = o := by
      simpa [create_order] using h
    subst ho
    rfl

/-- C6 witness: instantiation on a concrete store and request. -/
theorem c6_order_email_equals_request_email_witness :
    sample_order.email = sample_request.email :=
  c6_order_email_equals_request_email sample_request sample_users_store true sample_order rfl

/-- C7: on a well-formed store (stored ids below the fresh-id counter),
creating a user and fetching it by the assigned id returns the very same
record, whose username, email and password hash are the ones supplied. -/
theorem c7_create_then_get_roundtrip (ud : UserCreate) (db : Store) (h : Store.WF db) :
    get_user (create_user ud db).1.id (create_user ud db).2 = Except.ok (create_user ud db).1
    ∧ (create_user ud db).1.username = ud.username
    ∧ (create_user ud db).1.email = ud.email
    ∧ (create_user ud db).1.password_hash = ud.password_hash := by
  have hnone : db.users.find? (fun u => u.id == db.next_user_id) = none := by
    refine List.find?_eq_none.2 (fun u hu => ?_)
    simp only [beq_iff_eq]
    exact Nat.ne_of_lt (h u hu)
  refine ⟨?_, rfl, rfl, rfl⟩
  show get_user db.next_user_id (create_user ud db).2 = Except.ok (create_user ud db).1
  unfold get_user
  have hfind : (create_user ud db).2.users.find? (fun u => u.id == db.next_user_id)
      = some (create_user ud db).1 := by
    show (db.users ++ [(create_user ud db).1]).find? (fun u => u.id == db.next_user_id)
      = some (create_user ud db).1
    rw [find?_append_none _ _ hnone]
    exact List.find?_cons_of_pos _ (by simp [create_user])
  rw [hfind]

/-- C7 witness: instantiation on a concrete store and creation body. -/
theorem c7_create_then_get_roundtrip_witness :
    get_user (create_user new_user_data sample_users_store).1.id
        (create_user new_user_data sample_users_store).2
      = Except.ok (create_user new_user_data sample_users_store).1
    ∧ (create_user new_user_data sample_users_store).1.username = new_user_data.username
    ∧ (create_user new_user_data sample_users_store).1.email = new_user_data.email
    ∧ (create_user new_user_data sample_users_store).1.password_hash
      = new_user_data.password_hash :=
  c7_create_then_get_roundtrip new_user_data sample_users_store
    (by unfold Store.WF sample_users_store; decide)

/-- Lookup form: `get_user` answers 200 with the row `.first()` returns. -/
theorem get_user_of_find?_some (uid : Nat) (db : Store) (u : User)
    (h : db.users.find? (fun v => v.id == uid) = some u) :
    get_user uid db = Except.ok u := by
  unfold get_user
  rw [h]

/-- Lookup form: `get_user` answers 404 when `.first()` returns nothing. -/
theorem get_user_of_find?_none (uid : Nat) (db : Store)
    (h : db.users.find? (fun v => v.id == uid) = none) :
    get_user uid db = Except.error e404 := by
  unfold get_user
  rw [h]
  rfl

/-- C8: a successful PUT /users/{id} returns a user carrying exactly the
supplied username, email and password hash, with the id unchanged; a
re-fetch by that id returns that same updated record; every user with a
different id is still in the store, and the other tables and counters are
untouched. -/
theorem c8_update_then_get_frame (uid : Nat) (ud : UserCreate) (db : Store)
    (u' : User) (db' : Store)
    (h : update_user uid ud db = Except.ok (u', db')) :
    u'.username = ud.username
    ∧ u'.email = ud.email
    ∧ u'.password_hash = ud.password_hash
    ∧ u'.id = uid
    ∧ get_user uid db' = Except.ok u'
    ∧ (∀ v ∈ db.users, v.id ≠ uid → v ∈ db'.users)
    ∧ db'.products = db.products
    ∧ db'.orders = db.orders
    ∧ db'.next_user_id = db.next_user_id := by
  unfold update_user at h
  cases hf : db.users.find? (fun u => u.id == uid) with
  | none =>
    rw [hf] at h
    exact absurd h (by simp)
  | some w =>
    rw [hf] at h
    have hw : w.id = uid := by
      have := List.find?_some hf
      simpa [beq_iff_eq] using this
    injection h with h2
    injection h2 with hu hdb
    subst hu
    subst hdb
    refine ⟨rfl, rfl, rfl, hw, ?_, ?_, rfl, rfl, rfl⟩
    · exact get_user_of_find?_some uid _ _
        (find?_updateFirst (fun u => u.id == uid) (apply_user_data ud)
          (fun u hu => hu) db.users w hf)
    · intro v hv hne
      exact mem_updateFirst_of_neg _ _ db.users v hv (by simp [hne])

/-- C8 witness: instantiation on a concrete store and update body. -/
theorem c8_update_then_get_frame_witness :
    upd_user_expected.username = upd_data.username
    ∧ upd_user_expected.id = 1
    ∧ get_user 1 upd_store_expected = Except.ok upd_user_expected := by
  have H := c8_update_then_get_frame 1 upd_data sample_users_store
    upd_user_expected upd_store_expected rfl
  exact ⟨H.1, H.2.2.2.1, H.2.2.2.2.1⟩

/-- C9: GET, PUT and DELETE on /users/{id} answer the 404 "User not found"
error exactly when no stored user carries that id; and on a store with
pairwise-distinct user ids, deleting an existing user and then fetching
that id answers 404. -/
theorem c9_user_endpoints_404 (uid : Nat) (ud : UserCreate) (db : Store) :
    (get_user uid db = Except.error e404 ↔ ∀ u ∈ db.users, u.id ≠ uid)
    ∧ (update_user uid ud db = Except.error e404 ↔ ∀ u ∈ db.users, u.id ≠ uid)
    ∧ (delete_user uid db = Except.error e404 ↔ ∀ u ∈ db.users, u.id ≠ uid)
    ∧ (Store.UniqueIds db → ∀ msg db', delete_user uid db = Except.ok (msg, db') →
        get_user uid db' = Except.error e404) := by
  have kiff : db.users.find? (fun u => u.id == uid) = none ↔ ∀ u ∈ db.users, u.id ≠ uid := by
    rw [List.find?_eq_none]
    simp only [beq_iff_eq]
  have gchar : get_user uid db = Except.error e404
      ↔ db.users.find? (fun u => u.id == uid) = none := by
    unfold get_user
    cases hf : db.users.find? (fun u => u.id == uid) with
    | none => simp [e404]
    | some u => simp
  have uchar : update_user uid ud db = Except.error e404
      ↔ db.users.find? (fun u => u.id == uid) = none := by
    unfold update_user
    cases hf : db.users.find? (fun u => u.id == uid) with
    | none => simp [e404]
    | some u => simp
  have dchar : delete_user uid db = Except.error e404
      ↔ db.users.find? (fun u => u.id == uid) = none := by
    unfold delete_user
    cases hf : db.users.find? (fun u => u.id == uid) with
    | none => simp [e404]
    | some u => simp
  refine ⟨gchar.trans kiff, uchar.trans kiff, dchar.trans kiff, ?_⟩
  intro huniq msg db' hdel
  unfold delete_user at hdel
  cases hf : db.users.find? (fun u => u.id == uid) with
  | none =>
    rw [hf] at hdel
    exact absurd hdel (by simp)
  | some w =>
    rw [hf] at hdel
    injection hdel with h2
    injection h2 with hmsg hdb
    subst hdb
    exact get_user_of_find?_none uid _ (find?_id_removeFirst uid db.users huniq)

/-- C9 witness: on the concrete two-user store, deleting user 2 succeeds
and a subsequent fetch of id 2 answers 404; fetching the absent id 5
answers 404. -/
theorem c9_user_endpoints_404_witness :
    get_user 2 { sample_users_store with
        users := removeFirst (fun u => u.id == 2) sample_users_store.users }
      = Except.error e404
    ∧ get_user 5 sample_users_store = Except.error e404 := by
  have H := c9_user_endpoints_404 2 upd_data sample_users_store
  have H5 := c9_user_endpoints_404 5 upd_data sample_users_store
  refine ⟨?_, ?_⟩
  · exact H.2.2.2 (by unfold Store.UniqueIds sample_users_store; decide) _ _ rfl
  · exact H5.1.2 (by unfold sample_users_store; decide)

/-- C10: GET /users/ returns the store's user sequence with the first
`skip` entries dropped and then at most `limit` entries taken; with the
parameters omitted, skip defaults to 0 and limit to 10, so the default
call returns at most 10 users. -/
theorem c10_get_users_pagination (db : Store) (skip limit : Nat) :
    get_users db skip limit = (db.users.drop skip).take limit
    ∧ get_users_default db
      = get_users db GET_USERS_DEFAULT_SKIP GET_USERS_DEFAULT_LIMIT
    ∧ GET_USERS_DEFAULT_SKIP = 0
    ∧ GET_USERS_DEFAULT_LIMIT = 10
    ∧ (get_users_default db).length ≤ 10 := by
  refine ⟨rfl, rfl, rfl, rfl, ?_⟩
  show ((db.users.drop 0).take 10).length ≤ 10
  rw [List.length_take]
  exact Nat.min_le_left _ _
